import Mathlib

/-!
Verification of the validation-token state machine and authentication flows of
the site-management API.  The definitions below are a shallow embedding of the
JavaScript source: `models/validation.js` (token entity and its policy
methods), `services/userService.js` (verification, login, forgot/reset
password flows), `services/emailService.js` together with the email template
module (login-verification email rendering), and
`middleware/authMiddleware.js` with `utils/jwtUtils.js` (Bearer
authentication).  JavaScript `Date` values are modelled as natural numbers of
milliseconds since the epoch; database rows are explicit records and stores
are lists; randomness (secret generation) and I/O are abstracted into
parameters carrying the values the code would have produced.
-/

set_option maxRecDepth 10000

/-- Milliseconds since the epoch, the value of `Date.getTime()`. -/
abbrev Millis := Nat

/-- The `metadata` JSON column as populated by `loginUser`
(`{browser, os, device, country}` from the client info). -/
structure TokenContext where
  browser : Option String
  os : Option String
  device : Option String
  country : Option String
deriving DecidableEq

/-- A row of the `validations` table (`models/validation.js`).  `token` is the
secret the user must present; `validationId` is the public identifier used in
magic links; `type` is the kind string (the source stores it as a string
enum). -/
structure Validation where
  userId : String
  email : String
  token : String
  type : String
  expiresAt : Millis
  usedAt : Option Millis
  attempts : Nat
  maxAttempts : Nat
  ipAddress : Option String
  userAgent : Option String
  metadata : TokenContext
  validationId : String
deriving DecidableEq

/-- The members of the `type` ENUM declared on the `validations` model in
`models/validation.js`. -/
def validationTypeEnum : List String :=
  ["email_verification", "password_reset", "email_change",
   "phone_verification", "two_factor", "account_recovery"]

/-- `validation.prototype.getExpirationTime` from `models/validation.js`:
per-kind expiry, falling through to 24 hours for any other kind string. -/
def getExpirationTime (type : String) (now : Millis) : Millis :=
  if type = "email_verification" then now + 24 * 60 * 60 * 1000
  else if type = "password_reset" then now + 1 * 60 * 60 * 1000
  else if type = "email_change" then now + 2 * 60 * 60 * 1000
  else if type = "phone_verification" then now + 10 * 60 * 1000
  else if type = "two_factor" then now + 5 * 60 * 1000
  else if type = "account_recovery" then now + 48 * 60 * 60 * 1000
  else now + 24 * 60 * 60 * 1000

/-- `validation.prototype.getMaxAttempts` from `models/validation.js`:
5 for phone/two-factor, 3 for password reset, default 1.  At creation time
this method is dead code: the `maxAttempts` column's `defaultValue: 3` is
applied when the instance is built, before `beforeValidate` runs, so the
hook's `maxAttempts === undefined || === null` guard is always false. -/
def getMaxAttempts (type : String) : Nat :=
  if type = "phone_verification" ∨ type = "two_factor" then 5
  else if type = "password_reset" then 3
  else 1

/-- Creation of a validation row as the service call sites perform it (none
of them supply `token`, `validationId`, `expiresAt`, `maxAttempts`).
Sequelize first builds the instance, applying the column defaults
`attempts = 0` and `maxAttempts = 3`; then the `beforeValidate` hook of
`models/validation.js` runs: `expiresAt` is still unset (that column has no
default), so the hook fills `expiresAt := getExpirationTime(type)`, but
`maxAttempts` is already `3`, so the hook's `getMaxAttempts` branch never
fires and every service-created row keeps `maxAttempts = 3`.  `usedAt`
starts at null; the randomly generated `token` and `validationId` are
passed in as parameters. -/
def Validation.create (userId email type token validationId : String)
    (now : Millis) (ip ua : Option String) (meta : TokenContext) : Validation :=
  { userId := userId
    email := email
    token := token
    type := type
    expiresAt := getExpirationTime type now
    usedAt := none
    attempts := 0
    maxAttempts := 3
    ipAddress := ip
    userAgent := ua
    metadata := meta
    validationId := validationId }

/-- `validation.prototype.isExpired`: `new Date() > this.expiresAt`. -/
def Validation.isExpired (v : Validation) (now : Millis) : Bool :=
  decide (now > v.expiresAt)

/-- `validation.prototype.isUsed`: `!!this.usedAt`. -/
def Validation.isUsed (v : Validation) : Bool :=
  v.usedAt.isSome

/-- `validation.prototype.canAttempt`:
`attempts < maxAttempts && !isExpired() && !isUsed()`. -/
def Validation.canAttempt (v : Validation) (now : Millis) : Bool :=
  decide (v.attempts < v.maxAttempts) && !(v.isExpired now) && !v.isUsed

/-- `validation.prototype.incrementAttempts`: `this.attempts += 1` then save. -/
def Validation.incrementAttempts (v : Validation) : Validation :=
  { v with attempts := v.attempts + 1 }

/-- `validation.prototype.markAsUsed`: `this.usedAt = new Date()` then save. -/
def Validation.markAsUsed (v : Validation) (now : Millis) : Validation :=
  { v with usedAt := some now }

/-- Outcome of `verifyValidationToken` in `services/userService.js`, one
constructor per returned `code` (plus success), carrying the extra fields the
service attaches to that result object. -/
inductive VerifyOutcome where
  | notFound
  | expired (expiredAt : Millis)
  | alreadyUsed (usedAt : Millis)
  | maxAttemptsExceeded (attempts maxAttempts : Nat)
  | invalidToken (attemptsRemaining : Nat)
  | verified (userId email type : String)
deriving DecidableEq

/-- `verifyValidationToken(validationId, providedToken)` from
`services/userService.js`, applied to the row the `findOne` lookup returned
(`none` when no row matched).  Returns the outcome together with the stored
row as left behind by the call: expiry is checked before anything is
incremented, then used-ness, then `canAttempt`; an in-budget call increments
`attempts` first and only then compares the provided token (`!==`) with the
stored secret, marking the token used on a match. -/
def verifyValidationToken (found : Option Validation) (providedToken : String)
    (now : Millis) : VerifyOutcome × Option Validation :=
  match found with
  | none => (.notFound, none)
  | some v =>
    if v.isExpired now then (.expired v.expiresAt, some v)
    else if v.isUsed then (.alreadyUsed (v.usedAt.getD 0), some v)
    else if !(v.canAttempt now) then
      (.maxAttemptsExceeded v.attempts v.maxAttempts, some v)
    else
      let v1 := v.incrementAttempts
      if v1.token ≠ providedToken then
        (.invalidToken (v1.maxAttempts - v1.attempts), some v1)
      else
        (.verified v1.userId v1.email v1.type, some (v1.markAsUsed now))

/-- One verification call against a row that is present in the store
(`verifyValidationToken` with a successful lookup), returning the outcome and
the updated row. -/
def verifyOnce (v : Validation) (providedToken : String) (now : Millis) :
    VerifyOutcome × Validation :=
  let r := verifyValidationToken (some v) providedToken now
  (r.1, r.2.getD v)

/-- `n` sequential calls of `verifyValidationToken` against the same row with
the same provided secret, collecting the outcomes in call order. -/
def runGuesses (v : Validation) (providedToken : String) (now : Millis) :
    Nat → List VerifyOutcome × Validation
  | 0 => ([], v)
  | n + 1 =>
    let step := verifyOnce v providedToken now
    let rest := runGuesses step.2 providedToken now n
    (step.1 :: rest.1, rest.2)

/-- The mutating operations the service layer performs on a stored validation
row after creation: a verification call (`verifyValidationToken`) and direct
consumption (`markAsUsed`, as done by the link-resolution flows). -/
inductive TokenOp where
  | verify (providedToken : String) (now : Millis)
  | markUsed (now : Millis)

/-- Apply one token operation to a stored row. -/
def applyOp (v : Validation) : TokenOp → Validation
  | .verify p now => (verifyOnce v p now).2
  | .markUsed now => v.markAsUsed now

/-- Apply a sequence of token operations, left to right. -/
def applyOps (v : Validation) : List TokenOp → Validation
  | [] => v
  | op :: ops => applyOps (applyOp v op) ops

/-- A row of the users table, restricted to the columns the flows under
verification touch. -/
structure User where
  userId : String
  email : String
  fullname : String
  password : String
deriving DecidableEq

/-- The `data` object of a successful `forgotPassword` service result:
`{ emailSent }`. -/
structure ForgotData where
  emailSent : Bool
deriving DecidableEq

/-- The object `forgotPassword` in `services/userService.js` returns:
`success`, `message`, and (only on the user-exists branch) `data`.  A missing
`data` property is modelled as `none`, matching `JSON.stringify` dropping
`undefined` fields from the HTTP body. -/
structure ForgotResult where
  success : Bool
  message : String
  data : Option ForgotData
deriving DecidableEq

/-- The generic message both branches of `forgotPassword` use. -/
def forgotGenericMessage : String :=
  "If an account with that email exists, a password reset link has been sent"

/-- `forgotPassword(email)` from `services/userService.js`, with the store
lookup and mail dispatch abstracted to their outcomes: `userFound` is whether
`User.findOne` matched the email, `emailSent` the mailer result.  When no
user matches it returns `success: false` with the generic message and no
`data`; otherwise it reuses or creates a `password_reset` token, dispatches
the mail and returns `success: true` with `data: { emailSent }`. -/
def forgotPassword (userFound : Bool) (emailSent : Bool) : ForgotResult :=
  if !userFound then
    { success := false, message := forgotGenericMessage, data := none }
  else
    { success := true, message := forgotGenericMessage,
      data := some { emailSent := emailSent } }

/-- The JSON body the `forgotPassword` controller
(`controllers/userController.js`) sends: it always answers HTTP 200 with
`success: true`, `message: result.message`, `data: result.data`. -/
structure ForgotHttpBody where
  success : Bool
  message : String
  data : Option ForgotData
deriving DecidableEq

/-- The `forgotPassword` controller on the non-error path. -/
def controllerForgotPassword (userFound : Bool) (emailSent : Bool) : ForgotHttpBody :=
  let result := forgotPassword userFound emailSent
  { success := true, message := result.message, data := result.data }

/-- Outcome of `resetPassword` in `services/userService.js`. -/
inductive ResetOutcome where
  | userNotFound
  | passwordChanged
deriving DecidableEq

/-- `resetPassword(Id, newPassword)` from `services/userService.js`: the `Id`
argument is looked up as a **user id** (`User.findOne({where: {userId: Id}})`);
on a match the user's password is updated and success returned.  The function
never reads or writes the validations store, which is threaded through
unchanged. -/
def resetPassword (users : List User) (validations : List Validation)
    (id newPassword : String) : ResetOutcome × List User × List Validation :=
  match users.find? (fun u => u.userId == id) with
  | none => (.userNotFound, users, validations)
  | some _ =>
    (.passwordChanged,
     users.map (fun w => if w.userId == id then { w with password := newPassword } else w),
     validations)

/-- The registration magic link built in `createUser`:
`LINK + "magic-link/" + validationId`. -/
def registrationVerificationLink (base : String) (v : Validation) : String :=
  base ++ "magic-link/" ++ v.validationId

/-- The login magic link built in `loginUser`:
`LINK + "magic-login/" + validationId`. -/
def loginVerificationLinkUrl (base : String) (v : Validation) : String :=
  base ++ "magic-login/" ++ v.validationId

/-- The password-reset link built in `forgotPassword`:
`LINK + "reset-password/" + validationToken.token`. -/
def passwordResetLinkUrl (base : String) (v : Validation) : String :=
  base ++ "reset-password/" ++ v.token

/-- The lookup `getValidationData` and `verifyLoginLink` perform:
`findOne({where: {validationId: id}})`. -/
def findByValidationId (store : List Validation) (id : String) : Option Validation :=
  store.find? (fun v => v.validationId == id)

/-- The lookup `verifyPasswordResetLink` performs:
`findOne({where: {token: id}})` — the link parameter is matched against the
secret `token` column. -/
def findByTokenSecret (store : List Validation) (id : String) : Option Validation :=
  store.find? (fun v => v.token == id)

/-- Outcome of the link-resolution services (`verifyLoginLink`,
`verifyPasswordResetLink`). -/
inductive LinkOutcome where
  | notFound
  | invalidType
  | expired (expiredAt : Millis)
  | alreadyUsed (usedAt : Millis)
  | ok (userId validationId : String) (expiresAt : Millis)
deriving DecidableEq

/-- `verifyPasswordResetLink(validationId)` from `services/userService.js`:
despite the parameter name, the row is looked up by the `token` column; then
type, expiry and used-ness checks; a valid link answers with the row's
`userId`, `validationId` and `expiresAt` and does not mutate the row. -/
def verifyPasswordResetLink (store : List Validation) (id : String)
    (now : Millis) : LinkOutcome :=
  match findByTokenSecret store id with
  | none => .notFound
  | some v =>
    if v.type ≠ "password_reset" then .invalidType
    else if v.isExpired now then .expired v.expiresAt
    else if v.isUsed then .alreadyUsed (v.usedAt.getD 0)
    else .ok v.userId v.validationId v.expiresAt

/-- `verifyLoginLink(validationId)` from `services/userService.js`, with the
user lookup abstracted to whether the owning user still exists: the row is
looked up by `validationId`, checked for type `login_verification`, expiry
and used-ness, then marked used; credential issuance follows on success.
Returns the outcome and the store with the resolved row as left behind. -/
def verifyLoginLink (store : List Validation) (id : String) (now : Millis)
    (userExists : Bool) : LinkOutcome × List Validation :=
  match findByValidationId store id with
  | none => (.notFound, store)
  | some v =>
    if v.type ≠ "login_verification" then (.invalidType, store)
    else if v.isExpired now then (.expired v.expiresAt, store)
    else if v.isUsed then (.alreadyUsed (v.usedAt.getD 0), store)
    else if !userExists then (.notFound, store)
    else
      (.ok v.userId v.validationId v.expiresAt,
       store.map (fun w => if w.validationId == id then w.markAsUsed now else w))

/-- `EmailTemplate.loginVerificationEmail` from the email template module.
The template destructures `{recipientName, expiresIn, verificationLink,
siteName}`; its HTML body interpolates only `verificationLink` (guarded by a
truthiness check, modelled as `Option`), `siteName` and the current year —
`recipientName` and `expiresIn` are accepted but never interpolated.  The
static HTML is reproduced with its insignificant indentation whitespace
elided; every piece of visible text and every dynamic interpolation is kept. -/
def loginVerificationEmailTemplate (recipientName expiresIn : Option String)
    (verificationLink : Option String) (siteName : String) (year : Nat) : String :=
  "<!DOCTYPE html><html><head><meta charset=\"UTF-8\">" ++
  "<meta name=\"viewport\" content=\"width=device-width, initial-scale=1.0\"></head>" ++
  "<body style=\"margin: 0; padding: 0; font-family: Arial, sans-serif; background-color: #111111;\">" ++
  "<table role=\"presentation\"><tr><td style=\"padding: 40px 20px;\"><table role=\"presentation\">" ++
  "<tr><td style=\"background-color: #ff6900; padding: 30px; text-align: center;\">" ++
  "<h1>Let\x27s get you signed in</h1></td></tr>" ++
  "<tr><td style=\"padding: 40px 30px; background-color: #1a1a1a; text-align: center;\">" ++
  "<p>Sign in with the secure link below</p>" ++
  (match verificationLink with
   | some link =>
     "<table role=\"presentation\"><tr><td style=\"text-align: center;\">" ++
     "<a href=\"" ++ link ++ "\">Sign in to " ++ siteName ++ "</a></td></tr></table>"
   | none => "") ++
  "<p>If you didn\x27t request this email, you can safely ignore it.</p>" ++
  "<p>If you\x27re experiencing issues, please contact Support.</p></td></tr>" ++
  "<tr><td style=\"background-color: #0a0a0a; padding: 20px 30px; text-align: center;\">" ++
  "<p>This is an automated email. Please do not reply.<br>&copy; " ++
  toString year ++ " " ++ siteName ++ ". All rights reserved.</p>" ++
  "</td></tr></table></td></tr></table></body></html>"

/-- `sendLoginVerificationEmail` from `services/emailService.js`: it
destructures only `{email, recipientName, expiresIn, verificationLink,
siteName}` from its argument (any `token`, `validationId` or `deviceInfo`
properties a caller passes are dropped) and renders the template with
`expiresIn || "15 minutes"` and `siteName := process.env.APPNAME`.  This is
the rendered HTML handed to the mail transport. -/
def sendLoginVerificationEmailHtml (recipientName expiresIn : Option String)
    (verificationLink : Option String) (appname : String) (year : Nat) : String :=
  loginVerificationEmailTemplate recipientName (some (expiresIn.getD "15 minutes"))
    verificationLink appname year

/-- The email `loginUser` in `services/userService.js` dispatches for a
freshly created `login_verification` row `v`: recipient data from the user
row, `expiresIn: "15 minutes"`, and a verification link embedding
`v.validationId`; neither `v.token` nor the stored IP/device context is
passed to the mailer. -/
def loginUserEmailHtml (user : User) (base appname : String) (year : Nat)
    (v : Validation) : String :=
  sendLoginVerificationEmailHtml (some user.fullname) (some "15 minutes")
    (some (loginVerificationLinkUrl base v)) appname year

/-- The decoded JWT payload of an access credential as produced by
`generateAccessToken` in `utils/jwtUtils.js`: user claims plus `type`,
`jti` and `iat`. -/
structure DecodedToken where
  userId : String
  email : String
  fullname : String
  type : String
  jti : String
  iat : Nat
deriving DecidableEq

/-- The identity object `authenticate` attaches as `req.user`. -/
structure ReqUser where
  userId : String
deriving DecidableEq

/-- Outcome of the `authenticate` middleware: a 401 with an error code, or
the request proceeding with the attached identity. -/
inductive AuthOutcome where
  | unauthorized (code : String)
  | authenticated (user : ReqUser)
deriving DecidableEq

/-- `verifyAccessToken` from `utils/jwtUtils.js`, with signature and expiry
checking abstracted into the `Option` input (`none` when `jwt.verify`
throws): a structurally valid token is additionally rejected unless its
`type` claim is `"access"`. -/
def verifyAccessToken (decoded : Option DecodedToken) : Option DecodedToken :=
  match decoded with
  | none => none
  | some d => if d.type = "access" then some d else none

/-- The `authenticate` middleware from `middleware/authMiddleware.js`:
missing header → `NO_TOKEN`; not a `Bearer ` header → `INVALID_FORMAT`;
empty token after the prefix → `EMPTY_TOKEN`; a failing `verifyAccessToken`
(which throws in the source, caught as a 401) → `AUTH_FAILED`; on success
`req.user = { userId: decoded.userId }` and the request proceeds. -/
def authenticate (authHeader : Option String) (decoded : Option DecodedToken) :
    AuthOutcome :=
  match authHeader with
  | none => .unauthorized "NO_TOKEN"
  | some h =>
    if !(h.startsWith "Bearer ") then .unauthorized "INVALID_FORMAT"
    else if h.drop 7 = "" then .unauthorized "EMPTY_TOKEN"
    else
      match verifyAccessToken decoded with
      | none => .unauthorized "AUTH_FAILED"
      | some d => .authenticated { userId := d.userId }

/-- `true` exactly on the success outcome of `verifyValidationToken`. -/
def VerifyOutcome.isVerified : VerifyOutcome → Bool
  | .verified _ _ _ => true
  | _ => false

/-- `true` exactly on the `MAX_ATTEMPTS_EXCEEDED` outcome. -/
def VerifyOutcome.isMaxAttemptsHit : VerifyOutcome → Bool
  | .maxAttemptsExceeded _ _ => true
  | _ => false

/-- An empty device/IP context. -/
def emptyContext : TokenContext :=
  { browser := none, os := none, device := none, country := none }

/-- Concrete `password_reset` row used in witnesses: fresh (unused, expires at
1000), secret `s3cr3t`, public id `pub123`. -/
def sampleResetToken : Validation :=
  { userId := "user-1", email := "a@b.c", token := "s3cr3t", type := "password_reset",
    expiresAt := 1000, usedAt := none, attempts := 0, maxAttempts := 3,
    ipAddress := none, userAgent := none, metadata := emptyContext,
    validationId := "pub123" }

/-- Concrete `login_verification` row used in witnesses. -/
def sampleLoginToken : Validation :=
  { userId := "user-2", email := "l@b.c", token := "tokL", type := "login_verification",
    expiresAt := 1000, usedAt := none, attempts := 0, maxAttempts := 1,
    ipAddress := none, userAgent := none, metadata := emptyContext,
    validationId := "pubL" }

/-- Concrete fresh row with the `maxAttempts = 5` budget of the C2 scenario. -/
def guessToken : Validation :=
  { userId := "user-3", email := "g@b.c", token := "right", type := "login_verification",
    expiresAt := 1000000, usedAt := none, attempts := 0, maxAttempts := 5,
    ipAddress := none, userAgent := none, metadata := emptyContext,
    validationId := "pubG" }

/-- Concrete row whose attempt budget is exhausted but which is not expired
and not used. -/
def lockedToken : Validation :=
  { userId := "user-4", email := "k@b.c", token := "sec", type := "two_factor",
    expiresAt := 1000, usedAt := none, attempts := 5, maxAttempts := 5,
    ipAddress := none, userAgent := none, metadata := emptyContext,
    validationId := "pubK" }

/-- Concrete row that is both attempt-exhausted and past its expiry. -/
def lockedExpiredToken : Validation :=
  { userId := "user-5", email := "x@b.c", token := "sec", type := "two_factor",
    expiresAt := 5, usedAt := none, attempts := 5, maxAttempts := 5,
    ipAddress := none, userAgent := none, metadata := emptyContext,
    validationId := "pubX" }

/-- Concrete expired, never-attempted row. -/
def expiredToken : Validation :=
  { userId := "user-6", email := "q@b.c", token := "sec", type := "email_verification",
    expiresAt := 5, usedAt := none, attempts := 0, maxAttempts := 1,
    ipAddress := none, userAgent := none, metadata := emptyContext,
    validationId := "pubQ" }

/-- One of a pair of login rows sharing the public id but differing in secret
and captured IP/device context. -/
def loginTokenA : Validation :=
  { userId := "user-7", email := "m@b.c", token := "secretA", type := "login_verification",
    expiresAt := 900, usedAt := none, attempts := 0, maxAttempts := 1,
    ipAddress := some "10.0.0.1", userAgent := some "AgentA",
    metadata := { browser := some "Firefox", os := some "Linux",
                  device := some "desktop", country := some "FR" },
    validationId := "pubM" }

/-- The other of the pair: same public id, different secret and context. -/
def loginTokenB : Validation :=
  { userId := "user-7", email := "m@b.c", token := "secretB", type := "login_verification",
    expiresAt := 900, usedAt := none, attempts := 0, maxAttempts := 1,
    ipAddress := some "192.168.9.9", userAgent := some "AgentB",
    metadata := { browser := some "Chrome", os := some "Windows",
                  device := some "mobile", country := some "DE" },
    validationId := "pubM" }

/-- Concrete user row for witnesses. -/
def sampleUser : User :=
  { userId := "user-7", email := "m@b.c", fullname := "Ada Lovelace", password := "hash" }

/-- Concrete decoded access credential. -/
def decodedA : DecodedToken :=
  { userId := "u1", email := "a@b.c", fullname := "Ada", type := "access",
    jti := "jti-1", iat := 100 }

/-- Same subject as `decodedA`, every other claim different. -/
def decodedB : DecodedToken :=
  { userId := "u1", email := "z@y.x", fullname := "Zed", type := "access",
    jti := "jti-2", iat := 999 }

/-- Concrete operation sequence for the attempts invariant witness. -/
def sampleOps : List TokenOp :=
  [.verify "wrong" 10, .verify "wrong" 10, .markUsed 10]

/-- Substring occurrence on character lists, used to state the spec's
"the body never contains the secret / IP values" as an executable check:
`charsHaveInfix s pat` is true iff `pat` occurs contiguously in `s`. -/
def charsHaveInfix (s pat : List Char) : Bool :=
  match s with
  | [] => pat.isEmpty
  | _ :: t => pat.isPrefixOf s || charsHaveInfix t pat

/-- C1: creating a `login_verification` token gives it neither a 15-minute
expiry nor 5 attempts: `getExpirationTime` has no `login_verification` case,
so the hook falls through to the 24-hour default, and `maxAttempts` is the
column default 3 (applied at build time, before `beforeValidate`, so the
hook's `getMaxAttempts` branch — which itself has no `login_verification`
case and would return 1 — never fires); the kind is not even a member of the
model's `type` ENUM. -/
theorem C1_login_verification_policy :
    ∀ now : Millis,
      (Validation.create "u" "e@x" "login_verification" "sec" "pub" now none none
        emptyContext).expiresAt = now + 24 * 60 * 60 * 1000 ∧
      (Validation.create "u" "e@x" "login_verification" "sec" "pub" now none none
        emptyContext).expiresAt ≠ now + 15 * 60 * 1000 ∧
      (Validation.create "u" "e@x" "login_verification" "sec" "pub" now none none
        emptyContext).maxAttempts = 3 ∧
      (Validation.create "u" "e@x" "login_verification" "sec" "pub" now none none
        emptyContext).maxAttempts ≠ 5 ∧
      getMaxAttempts "login_verification" = 1 ∧
      "login_verification" ∉ validationTypeEnum := by
  intro now
  refine ⟨rfl, ?_, rfl, ?_, by decide, by decide⟩
  · simp [Validation.create, getExpirationTime]
  · simp [Validation.create]

/-- C3: the forgot-password responses are not shape-identical: for an unknown
email the service result carries `success: false` and no `data`, while for a
known email it carries `success: true` and `data: { emailSent }`; the HTTP
body the controller sends therefore has a `data` field exactly when the email
exists, distinguishing the two runs (the generic message itself is the same). -/
theorem C3_forgot_password_shape_leak :
    (controllerForgotPassword false true).message = (controllerForgotPassword true true).message ∧
    (controllerForgotPassword false true).success = (controllerForgotPassword true true).success ∧
    (controllerForgotPassword false true).data = none ∧
    (controllerForgotPassword true true).data = some { emailSent := true } ∧
    controllerForgotPassword false true ≠ controllerForgotPassword true true ∧
    (forgotPassword false true).success = false ∧
    (forgotPassword true true).success = true := by
  decide

/-- C4: the reset-password-submit operation never validates or consumes a
`PasswordReset` token: `resetPassword` looks its `id` argument up as a user
id and updates that user's password, returning the validations store
untouched — in particular no token's `usedAt` is ever set by it. -/
theorem C4_reset_password_ignores_tokens :
    ∀ (users : List User) (validations : List Validation) (id newPassword : String),
      (resetPassword users validations id newPassword).2.2 = validations ∧
      ((resetPassword users validations id newPassword).1 = ResetOutcome.userNotFound ↔
        users.find? (fun u => u.userId == id) = none) := by
  intro users validations id pw
  cases hf : users.find? (fun u => u.userId == id) with
  | none => simp [resetPassword, hf]
  | some u => simp [resetPassword, hf]

/-- C7: a verification call against a stored token past its expiry returns
`EXPIRED` (with the stored `expiresAt`) and leaves the row untouched — in
particular `attempts` is not incremented. -/
theorem C7_expired_token_unchanged :
    ∀ (v : Validation) (p : String) (now : Millis),
      v.isExpired now = true →
      verifyValidationToken (some v) p now = (.expired v.expiresAt, some v) := by
  intro v p now h
  simp [verifyValidationToken, h]

/-- Witness for C7 at the concrete expired row. -/
theorem C7_expired_token_unchanged_witness :
    expiredToken.isExpired 10 = true ∧
    verifyValidationToken (some expiredToken) "sec" 10 =
      (.expired expiredToken.expiresAt, some expiredToken) :=
  ⟨by decide, C7_expired_token_unchanged expiredToken "sec" 10 (by decide)⟩

/-- C6 (counterexample): a token whose attempt budget is exhausted does not
always answer `MAX_ATTEMPTS_EXCEEDED` — when it is also past its expiry the
expiry check fires first, so the call (here even with the correct secret)
returns `EXPIRED`. -/
theorem C6_counterexample_locked_expired_token :
    lockedExpiredToken.attempts = lockedExpiredToken.maxAttempts ∧
    lockedExpiredToken.token = "sec" ∧
    (verifyValidationToken (some lockedExpiredToken) "sec" 10).1 =
      .expired lockedExpiredToken.expiresAt ∧
    VerifyOutcome.isMaxAttemptsHit
      (verifyValidationToken (some lockedExpiredToken) "sec" 10).1 = false := by
  decide

/-- C6 (amended): once `attempts` has reached `maxAttempts`, no verification
call ever succeeds again, even with the correct secret; the call answers
`MAX_ATTEMPTS_EXCEEDED` (leaving the row unchanged) whenever the token is
neither expired nor used, while an expired or used locked token answers
`EXPIRED` resp. `ALREADY_USED`. -/
theorem C6_locked_token_never_verifies :
    ∀ (v : Validation) (p : String) (now : Millis),
      v.maxAttempts ≤ v.attempts →
      VerifyOutcome.isVerified (verifyValidationToken (some v) p now).1 = false ∧
      (v.isExpired now = false → v.isUsed = false →
        verifyValidationToken (some v) p now =
          (.maxAttemptsExceeded v.attempts v.maxAttempts, some v)) := by
  intro v p now hle
  have hca : v.canAttempt now = false := by
    simp [Validation.canAttempt, decide_eq_false (by omega : ¬ v.attempts < v.maxAttempts)]
  constructor
  · cases hexp : v.isExpired now with
    | true => simp [verifyValidationToken, hexp, VerifyOutcome.isVerified]
    | false =>
      cases hused : v.isUsed with
      | true => simp [verifyValidationToken, hexp, hused, VerifyOutcome.isVerified]
      | false => simp [verifyValidationToken, hexp, hused, hca, VerifyOutcome.isVerified]
  · intro hexp hused
    simp [verifyValidationToken, hexp, hused, hca]

/-- Witness for C6 at the concrete locked (unexpired, unused) row, presented
with the correct secret. -/
theorem C6_locked_token_never_verifies_witness :
    VerifyOutcome.isVerified (verifyValidationToken (some lockedToken) "sec" 10).1 = false ∧
    verifyValidationToken (some lockedToken) "sec" 10 =
      (.maxAttemptsExceeded lockedToken.attempts lockedToken.maxAttempts, some lockedToken) :=
  ⟨(C6_locked_token_never_verifies lockedToken "sec" 10 (by decide)).1,
   (C6_locked_token_never_verifies lockedToken "sec" 10 (by decide)).2 (by decide) (by decide)⟩

/-- C9: the rendered login-verification email is a function of the recipient
name, the link (which embeds only `validationId`) and the site name — two
login tokens sharing a public id but differing arbitrarily in `token`
(secret), `ipAddress`, `userAgent` or `metadata` produce identical bodies,
since `sendLoginVerificationEmail` is never handed those fields. -/
theorem C9_login_email_independent_of_secret :
    (∀ (user : User) (base appname : String) (year : Nat) (v1 v2 : Validation),
      v1.validationId = v2.validationId →
      loginUserEmailHtml user base appname year v1 =
        loginUserEmailHtml user base appname year v2) ∧
    charsHaveInfix
      (loginUserEmailHtml sampleUser "https://app/" "SiteMgr" 2026 loginTokenA).toList
      loginTokenA.token.toList = false ∧
    charsHaveInfix
      (loginUserEmailHtml sampleUser "https://app/" "SiteMgr" 2026 loginTokenA).toList
      "10.0.0.1".toList = false := by
  refine ⟨?_, by decide, by decide⟩
  intro user base appname year v1 v2 h
  unfold loginUserEmailHtml sendLoginVerificationEmailHtml loginVerificationLinkUrl
  rw [h]

/-- Witness for C9: two concrete rows with the same public id but different
secrets and different IP/device context render the same email body. -/
theorem C9_login_email_independent_witness :
    loginTokenA.validationId = loginTokenB.validationId ∧
    loginTokenA.token ≠ loginTokenB.token ∧
    loginTokenA.ipAddress ≠ loginTokenB.ipAddress ∧
    loginUserEmailHtml sampleUser "https://app/" "SiteMgr" 2026 loginTokenA =
      loginUserEmailHtml sampleUser "https://app/" "SiteMgr" 2026 loginTokenB :=
  ⟨by decide, by decide, by decide,
   C9_login_email_independent_of_secret.1 sampleUser "https://app/" "SiteMgr" 2026
     loginTokenA loginTokenB (by decide)⟩

/-- C10: when the Bearer credential verifies, the middleware attaches exactly
`{ userId }` as the request identity: the attached object equals
`{ userId := decoded.userId }`, and two decoded payloads agreeing on
`userId` (and on the `type` discriminator the verifier checks) yield
identical middleware outcomes — the other claims (email, fullname, jti, iat)
are discarded. -/
theorem C10_auth_identity_minimal :
    ∀ (h : Option String) (d1 d2 : DecodedToken) (u : ReqUser),
      (authenticate h (some d1) = .authenticated u → u = { userId := d1.userId }) ∧
      (d1.userId = d2.userId → d1.type = d2.type →
        authenticate h (some d1) = authenticate h (some d2)) := by
  intro h d1 d2 u
  constructor
  · intro hEq
    cases h with
    | none => simp [authenticate] at hEq
    | some s =>
      by_cases hb : s.startsWith "Bearer "
      · by_cases he : s.drop 7 = ""
        · simp [authenticate, hb, he] at hEq
        · by_cases ht : d1.type = "access"
          · simp [authenticate, verifyAccessToken, hb, he, ht] at hEq
            cases u
            simp_all
          · simp [authenticate, verifyAccessToken, hb, he, ht] at hEq
      · simp [authenticate, hb] at hEq
  · intro hu ht
    cases h with
    | none => rfl
    | some s =>
      by_cases hb : s.startsWith "Bearer "
      · by_cases he : s.drop 7 = ""
        · simp [authenticate, hb, he]
        · by_cases ha : d1.type = "access"
          · have ha2 : d2.type = "access" := ht.symm.trans ha
            simp [authenticate, verifyAccessToken, hb, he, ha, ha2, hu]
          · have ha2 : ¬ d2.type = "access" := fun hx => ha (ht.trans hx)
            simp [authenticate, verifyAccessToken, hb, he, ha, ha2]
      · simp [authenticate, hb]

/-- Witness for C10: a concrete valid Bearer request with two decoded
payloads sharing only the subject. -/
theorem C10_auth_identity_minimal_witness :
    (authenticate (some "Bearer abc") (some decodedA) =
        .authenticated { userId := "u1" } →
      ({ userId := "u1" } : ReqUser) = { userId := decodedA.userId }) ∧
    decodedA.email ≠ decodedB.email ∧
    authenticate (some "Bearer abc") (some decodedA) =
      authenticate (some "Bearer abc") (some decodedB) :=
  ⟨(C10_auth_identity_minimal (some "Bearer abc") decodedA decodedB { userId := "u1" }).1,
   by decide,
   (C10_auth_identity_minimal (some "Bearer abc") decodedA decodedB
      { userId := "u1" }).2 (by decide) (by decide)⟩

/-- Single-step effect of a token operation on the attempt counter:
`maxAttempts` is never modified, and `attempts` either stays put or — only
when `canAttempt` held, hence only when strictly below the ceiling — grows by
exactly one. -/
theorem applyOp_attempts_step (v : Validation) (op : TokenOp) :
    (applyOp v op).maxAttempts = v.maxAttempts ∧
    ((applyOp v op).attempts = v.attempts ∨
      ((applyOp v op).attempts = v.attempts + 1 ∧ v.attempts < v.maxAttempts)) := by
  cases op with
  | markUsed now => simp [applyOp, Validation.markAsUsed]
  | verify p now =>
    cases hexp : v.isExpired now with
    | true => simp [applyOp, verifyOnce, verifyValidationToken, hexp]
    | false =>
      cases hused : v.isUsed with
      | true => simp [applyOp, verifyOnce, verifyValidationToken, hexp, hused]
      | false =>
        cases hca : v.canAttempt now with
        | false => simp [applyOp, verifyOnce, verifyValidationToken, hexp, hused, hca]
        | true =>
          have hlt : v.attempts < v.maxAttempts := by
            have := hca
            simp [Validation.canAttempt, hexp, hused] at this
            exact this
          by_cases htok : v.token = p
          · refine ⟨?_, Or.inr ⟨?_, hlt⟩⟩ <;>
              simp [applyOp, verifyOnce, verifyValidationToken, hexp, hused, hca, htok,
                Validation.incrementAttempts, Validation.markAsUsed]
          · refine ⟨?_, Or.inr ⟨?_, hlt⟩⟩ <;>
              simp [applyOp, verifyOnce, verifyValidationToken, hexp, hused, hca, htok,
                Validation.incrementAttempts]

/-- C8: across any sequence of post-creation token operations (verification
calls, `markUsed`), `attempts` is monotonically non-decreasing, `maxAttempts`
is never changed, and starting at or below the ceiling the counter never
exceeds `maxAttempts`; creation itself starts the counter at 0. -/
theorem C8_attempts_monotone_bounded :
    (∀ (v : Validation) (ops : List TokenOp),
      v.attempts ≤ (applyOps v ops).attempts ∧
      (applyOps v ops).maxAttempts = v.maxAttempts ∧
      (v.attempts ≤ v.maxAttempts →
        (applyOps v ops).attempts ≤ (applyOps v ops).maxAttempts)) ∧
    (∀ (userId email type token validationId : String) (now : Millis)
        (ip ua : Option String) (meta : TokenContext),
      (Validation.create userId email type token validationId now ip ua meta).attempts = 0) := by
  constructor
  · intro v ops
    induction ops generalizing v with
    | nil => simp [applyOps]
    | cons op ops ih =>
      obtain ⟨hmax, hstep⟩ := applyOp_attempts_step v op
      obtain ⟨hmono, hmaxops, hbound⟩ := ih (applyOp v op)
      refine ⟨?_, ?_, ?_⟩
      · rcases hstep with hEq | ⟨hSucc, _⟩
        · simpa [applyOps, hEq] using hmono
        · simp only [applyOps]
          omega
      · simp only [applyOps]
        rw [hmaxops, hmax]
      · intro hle
        have hle2 : (applyOp v op).attempts ≤ (applyOp v op).maxAttempts := by
          rcases hstep with hEq | ⟨hSucc, hlt⟩ <;> omega
        simpa [applyOps] using hbound hle2
  · intro userId email type token validationId now ip ua meta
    rfl

/-- Witness for C8: the concrete fresh `maxAttempts = 5` row under two wrong
guesses followed by a `markUsed`. -/
theorem C8_attempts_monotone_bounded_witness :
    guessToken.attempts ≤ (applyOps guessToken sampleOps).attempts ∧
    (applyOps guessToken sampleOps).attempts ≤ (applyOps guessToken sampleOps).maxAttempts ∧
    (Validation.create "u" "e@x" "email_verification" "s" "p" 0 none none
      emptyContext).attempts = 0 :=
  ⟨(C8_attempts_monotone_bounded.1 guessToken sampleOps).1,
   (C8_attempts_monotone_bounded.1 guessToken sampleOps).2.2 (by decide),
   C8_attempts_monotone_bounded.2 "u" "e@x" "email_verification" "s" "p" 0 none none
     emptyContext⟩

/-- An in-budget verification call with a wrong secret: the attempt is
recorded first, and the outcome is `INVALID_TOKEN` with
`attemptsRemaining = maxAttempts - attempts` computed from the already
incremented counter. -/
theorem verifyOnce_wrong (w : Validation) (p : String) (now : Millis)
    (hca : w.canAttempt now = true) (hne : p ≠ w.token) :
    verifyOnce w p now =
      (.invalidToken (w.maxAttempts - (w.attempts + 1)), w.incrementAttempts) := by
  have h3 := hca
  simp only [Validation.canAttempt, Bool.and_eq_true, Bool.not_eq_eq_eq_not,
    Bool.not_true, decide_eq_true_eq] at h3
  obtain ⟨⟨hlt, hexp⟩, hused⟩ := h3
  simp [verifyOnce, verifyValidationToken, hexp, hused, hca,
    Validation.incrementAttempts, Ne.symm hne]

/-- C2 (counterexample): five sequential wrong guesses against a fresh token
with `maxAttempts = 5` return `INVALID_TOKEN` with `attemptsRemaining`
4, 3, 2, 1, 0 — not 3, 2, 1, 0 followed by `MAX_ATTEMPTS_EXCEEDED` as the
claim predicts; the ceiling error only appears on the sixth call. -/
theorem C2_counterexample_attempts_remaining :
    guessToken.attempts = 0 ∧ guessToken.maxAttempts = 5 ∧
    (runGuesses guessToken "wrong" 0 5).1 =
      [.invalidToken 4, .invalidToken 3, .invalidToken 2, .invalidToken 1, .invalidToken 0] ∧
    (runGuesses guessToken "wrong" 0 5).1 ≠
      [.invalidToken 3, .invalidToken 2, .invalidToken 1, .invalidToken 0,
       .maxAttemptsExceeded 5 5] := by
  decide

/-- C2 (amended): for a token with `maxAttempts = 5` and `attempts = 0`,
five sequential wrong guesses return `INVALID_TOKEN` with decreasing
`attemptsRemaining` 4, 3, 2, 1, 0 and the sixth call returns
`MAX_ATTEMPTS_EXCEEDED`; in general an in-budget wrong guess returns
`INVALID_TOKEN` with `attemptsRemaining = maxAttempts - attempts` where
`attempts` is the counter after the recorded attempt. -/
theorem C2_wrong_guess_sequence :
    ∀ (v : Validation) (p : String) (now : Millis),
      v.attempts = 0 → v.maxAttempts = 5 →
      v.isExpired now = false → v.usedAt = none → p ≠ v.token →
      (runGuesses v p now 5).1 =
        [.invalidToken 4, .invalidToken 3, .invalidToken 2, .invalidToken 1,
         .invalidToken 0] ∧
      (runGuesses v p now 6).1 =
        [.invalidToken 4, .invalidToken 3, .invalidToken 2, .invalidToken 1,
         .invalidToken 0, .maxAttemptsExceeded 5 5] ∧
      (∀ w : Validation, w.canAttempt now = true → p ≠ w.token →
        (verifyOnce w p now).1 = .invalidToken (w.maxAttempts - (w.attempts + 1)) ∧
        (verifyOnce w p now).2.attempts = w.attempts + 1) := by
  intro v p now h0 h5 hexp husedeq hne
  refine ⟨?_, ?_, ?_⟩
  · rcases v with ⟨uid, em, tok, ty, exp, usd, att, mx, ip, ua, meta, vid⟩
    simp only [] at h0 h5 hexp husedeq hne
    subst h0; subst h5; subst husedeq
    simp only [Validation.isExpired, decide_eq_false_iff_not] at hexp
    simp [runGuesses, verifyOnce, verifyValidationToken, Validation.isExpired,
      Validation.isUsed, Validation.canAttempt, Validation.incrementAttempts,
      hexp, Ne.symm hne]
  · rcases v with ⟨uid, em, tok, ty, exp, usd, att, mx, ip, ua, meta, vid⟩
    simp only [] at h0 h5 hexp husedeq hne
    subst h0; subst h5; subst husedeq
    simp only [Validation.isExpired, decide_eq_false_iff_not] at hexp
    simp [runGuesses, verifyOnce, verifyValidationToken, Validation.isExpired,
      Validation.isUsed, Validation.canAttempt, Validation.incrementAttempts,
      hexp, Ne.symm hne]
  · intro w hca hnew
    rw [verifyOnce_wrong w p now hca hnew]
    exact ⟨rfl, by simp [Validation.incrementAttempts]⟩

/-- Witness for C2 at the concrete fresh `maxAttempts = 5` row. -/
theorem C2_wrong_guess_sequence_witness :
    (runGuesses guessToken "wrong" 0 6).1 =
      [.invalidToken 4, .invalidToken 3, .invalidToken 2, .invalidToken 1,
       .invalidToken 0, .maxAttemptsExceeded 5 5] :=
  (C2_wrong_guess_sequence guessToken "wrong" 0 (by decide) (by decide) (by decide)
    (by decide) (by decide)).2.1

/-- C5 (counterexample): the password-reset magic link dispatched by
`forgotPassword` embeds the token's secret (`token` column), not its public
`validationId`: for the concrete reset row the link ends in the secret and
differs from the validationId-based URL. -/
theorem C5_counterexample_reset_link_embeds_secret :
    sampleResetToken.token = "s3cr3t" ∧
    sampleResetToken.validationId = "pub123" ∧
    passwordResetLinkUrl "https://app/" sampleResetToken =
      "https://app/reset-password/s3cr3t" ∧
    passwordResetLinkUrl "https://app/" sampleResetToken ≠
      "https://app/" ++ "reset-password/" ++ sampleResetToken.validationId := by
  refine ⟨rfl, rfl, rfl, ?_⟩
  decide

/-- C5 (amended): the registration and login magic links embed the token's
public `validationId` and login-link resolution looks the token up by
`validationId`; the password-reset link instead embeds the secret `token`
value, and reset-link resolution looks the token up by the `token` column —
resolving a reset token by its `validationId` finds nothing. -/
theorem C5_links_and_resolution :
    ∀ (base : String) (now : Millis) (vr vl : Validation),
      vr.type = "password_reset" → vr.isExpired now = false → vr.usedAt = none →
      vr.token ≠ vr.validationId →
      vl.type = "login_verification" → vl.isExpired now = false → vl.usedAt = none →
      registrationVerificationLink base vl = base ++ "magic-link/" ++ vl.validationId ∧
      loginVerificationLinkUrl base vl = base ++ "magic-login/" ++ vl.validationId ∧
      passwordResetLinkUrl base vr = base ++ "reset-password/" ++ vr.token ∧
      verifyPasswordResetLink [vr] vr.token now =
        .ok vr.userId vr.validationId vr.expiresAt ∧
      verifyPasswordResetLink [vr] vr.validationId now = .notFound ∧
      (verifyLoginLink [vl] vl.validationId now true).1 =
        .ok vl.userId vl.validationId vl.expiresAt := by
  intro base now vr vl hty hexp hused hne hlty hlexp hlused
  refine ⟨rfl, rfl, rfl, ?_, ?_, ?_⟩
  · simp [verifyPasswordResetLink, findByTokenSecret, hty, hexp,
      Validation.isUsed, hused]
  · have hbeq : (vr.token == vr.validationId) = false := by
      simp [hne]
    simp [verifyPasswordResetLink, findByTokenSecret, List.find?, hbeq]
  · simp [verifyLoginLink, findByValidationId, hlty, hlexp,
      Validation.isUsed, hlused]

/-- Witness for C5 at the concrete reset and login rows. -/
theorem C5_links_and_resolution_witness :
    registrationVerificationLink "https://app/" sampleLoginToken =
      "https://app/" ++ "magic-link/" ++ sampleLoginToken.validationId ∧
    loginVerificationLinkUrl "https://app/" sampleLoginToken =
      "https://app/" ++ "magic-login/" ++ sampleLoginToken.validationId ∧
    passwordResetLinkUrl "https://app/" sampleResetToken =
      "https://app/" ++ "reset-password/" ++ sampleResetToken.token ∧
    verifyPasswordResetLink [sampleResetToken] sampleResetToken.token 10 =
      .ok sampleResetToken.userId sampleResetToken.validationId sampleResetToken.expiresAt ∧
    verifyPasswordResetLink [sampleResetToken] sampleResetToken.validationId 10 = .notFound ∧
    (verifyLoginLink [sampleLoginToken] sampleLoginToken.validationId 10 true).1 =
      .ok sampleLoginToken.userId sampleLoginToken.validationId sampleLoginToken.expiresAt :=
  C5_links_and_resolution "https://app/" 10 sampleResetToken sampleLoginToken
    (by decide) (by decide) (by decide) (by decide) (by decide) (by decide) (by decide)
